import Mathlib

/-!
AutoFlow orchestrator (.autoflow/agents/orchestrator.py): a shallow
embedding of the coordination core — the context-firewall summarization,
the git worktree pool, the human checkpoint gate, the per-phase agents and
the five-phase workflow driver — together with theorems settling the
specification claims.

Python strings are modelled as lists of characters (`Str`); Python string
operations (split, strip, startswith, slicing, join) are translated
operation by operation.  External effects (git subprocess calls, the
Claude API call, stdin responses) enter the model as explicit parameters
describing the outcome of the external interaction; state touched by
subprocess calls (the repository, the worktree directory tree) is modelled
as explicit record state threaded through the functions.
-/

set_option maxRecDepth 8192

namespace AutoFlow

/-- Python strings modelled as lists of characters (one entry per code
point, matching Python `len`). -/
abbrev Str := List Char

/-- Model of Python `s.split('\n')`: splits on every newline, keeping
empty segments, so the empty string yields one empty line. -/
def splitLines : Str → List Str
  | [] => [[]]
  | c :: cs =>
    if c = '\n' then [] :: splitLines cs
    else
      match splitLines cs with
      | [] => [[c]]
      | l :: ls => (c :: l) :: ls

/-- Model of Python `s.strip()`: drops whitespace from both ends (the
whitespace classes of Python and `Char.isWhitespace` agree on the
characters that occur here). -/
def stripChars (s : Str) : Str :=
  ((s.dropWhile Char.isWhitespace).reverse.dropWhile Char.isWhitespace).reverse

/-- Line filter of `ContextFirewall.create_summary` (orchestrator.py line
126): `l.strip().startswith(('-', '*', '1', '2', '3'))` — the stripped
line must begin with a dash, a star, or one of the digit characters 1, 2
or 3 (no other digits are recognized). -/
def is_key_point (l : Str) : Bool :=
  match stripChars l with
  | [] => false
  | c :: _ => c = '-' || c = '*' || c = '1' || c = '2' || c = '3'

/-- Key-point extraction of `create_summary` (line 126): the lines of the
content that pass `is_key_point`, in original order. -/
def key_points (full_output : Str) : List Str :=
  (splitLines full_output).filter is_key_point

/-- Header built at line 128: `f"SUMMARY ({len(key_points)} key points):\n\n"`. -/
def summary_header (n : Nat) : Str :=
  "SUMMARY (".data ++ Nat.toDigits 10 n ++ " key points):\n\n".data

/-- Summary text assembled at lines 128-129, before the budget check:
header plus the first 20 key points joined with newlines. -/
def summary_before_truncation (full_output : Str) : Str :=
  summary_header (key_points full_output).length ++
    List.intercalate ['\n'] ((key_points full_output).take 20)

/-- Truncation marker appended at line 132: `"\n\n[Truncated...]"` (16
characters). -/
def truncation_marker : Str := "\n\n[Truncated...]".data

/-- Model of `ContextFirewall.create_summary(full_output, max_tokens)`
(lines 116-134).  The budget check is `len(summary) > max_tokens * 4`
("rough char estimate" comment at line 131): when it trips, the text is
hard-truncated to `max_tokens * 4` characters and the marker appended. -/
def create_summary (full_output : Str) (max_tokens : Nat) : Str :=
  if (summary_before_truncation full_output).length > max_tokens * 4 then
    (summary_before_truncation full_output).take (max_tokens * 4) ++ truncation_marker
  else
    summary_before_truncation full_output

/-- Model of `ContextFirewall.save_full_output(agent_name, phase, content)`
(lines 108-114): writes `content` to
`firewall_dir / f"{agent_name}-{phase}-{timestamp}.md"` and returns that
path as a string; the directory and the clock timestamp are the object
state, passed explicitly here.  The content argument only affects the file
body, not the returned path. -/
def save_full_output (firewall_dir agent_name phase timestamp content : String) : String :=
  firewall_dir ++ "/" ++ agent_name ++ "-" ++ phase ++ "-" ++ timestamp ++ ".md"

/-- Substring test: `containsSeg h n` holds when `n` occurs as a
contiguous segment of `h` (Python `n in h`). -/
def containsSeg : Str → Str → Bool
  | _, [] => true
  | [], _ :: _ => false
  | c :: cs, n => n.isPrefixOf (c :: cs) || containsSeg cs n

/-- Observable repository state touched by `WorktreeManager.merge_worktree`
(lines 170-187).  `worktreeDirPresent`: the worktree directory for the
branch exists; `worktreeClean`: it has no uncommitted modifications (so
`git worktree remove` without `--force` succeeds); `branchPresent`: the
branch exists; `branchMerged`: the branch is fully merged into main (so
`git branch -d` succeeds); `conflictInProgress`: an unresolved merge
conflict sits in the main checkout. -/
structure RepoState where
  headIsMain : Bool
  worktreeDirPresent : Bool
  worktreeClean : Bool
  branchPresent : Bool
  branchMerged : Bool
  conflictInProgress : Bool
deriving DecidableEq

/-- Outcome of the external `git merge --no-ff <branch>` call at line 180:
either the merge commits cleanly or it stops with a conflict. -/
inductive MergeOutcome
  | success
  | conflict
deriving DecidableEq

/-- Effect of `git checkout main` (line 179); modelled as succeeding. -/
def git_checkout_main (s : RepoState) : RepoState :=
  { s with headIsMain := true }

/-- Effect of `git merge --no-ff branch_name` (line 180): on success the
branch becomes merged into main; on conflict the main checkout is left in
a conflicted state.  The code never inspects this call's return code. -/
def git_merge_no_ff (outcome : MergeOutcome) (s : RepoState) : RepoState :=
  match outcome with
  | .success => { s with branchMerged := true }
  | .conflict => { s with conflictInProgress := true }

/-- Effect of `git worktree remove <path>` (line 183): git removes the
directory when the worktree is clean and refuses otherwise.  The code
never inspects this call's return code. -/
def git_worktree_remove (s : RepoState) : RepoState :=
  if s.worktreeClean then { s with worktreeDirPresent := false } else s

/-- Effect of `git branch -d branch_name` (line 184): lowercase `-d`
deletes the branch only when it is merged into main.  The code never
inspects this call's return code. -/
def git_branch_delete (s : RepoState) : RepoState :=
  if s.branchMerged then { s with branchPresent := false } else s

/-- Model of `WorktreeManager.merge_worktree(branch_name)` (lines
170-187): if the worktree directory is missing, print and return False;
otherwise run checkout, merge, worktree remove and branch delete in that
order — with no check anywhere of the merge outcome — and return True. -/
def merge_worktree (outcome : MergeOutcome) (s : RepoState) : RepoState × Bool :=
  if s.worktreeDirPresent = false then (s, false)
  else
    (git_branch_delete (git_worktree_remove (git_merge_no_ff outcome (git_checkout_main s))), true)

/-- Filesystem/branch namespace seen by `WorktreeManager.create_worktree`
(lines 153-168): the branch names whose worktree directory exists under
`worktrees/`, and the branch names that exist in the repository. -/
structure PoolState where
  worktrees : List String
  branches : List String
deriving DecidableEq

/-- Worktree path chosen at line 155: `worktrees_dir / branch_name`. -/
def worktree_path (branch_name : String) : String :=
  "worktrees/" ++ branch_name

/-- Model of `WorktreeManager.create_worktree(branch_name, issue_number)`
(lines 153-168): if the worktree directory already exists, print and
return None with no command run; otherwise run
`git worktree add <path> -b branch_name`, which fails (creating nothing)
when the branch already exists, and on success creates both the directory
and the branch and returns the path. -/
def create_worktree (st : PoolState) (branch_name : String) : Option String × PoolState :=
  if branch_name ∈ st.worktrees then (none, st)
  else if branch_name ∈ st.branches then (none, st)
  else (some (worktree_path branch_name),
        { worktrees := branch_name :: st.worktrees, branches := branch_name :: st.branches })

/-- Model of `HumanCheckpoint._handle_modify(data)` (lines 220-224):
prints that modification is not implemented and returns False. -/
def handle_modify : Bool := false

/-- Model of Python `s.lower()` (ASCII case folding, which covers every
recognized response). -/
def lower (s : Str) : Str := s.map Char.toLower

/-- Model of the response loop of `HumanCheckpoint.request_approval`
(lines 211-218): reads responses in order, lowercases each, returns True
on yes/y, False on no/n, `handle_modify` (False) on modify/m, and loops
on anything else.  The pending stdin responses are the list argument;
`none` models the loop still blocked after exhausting them. -/
def request_approval : List Str → Option Bool
  | [] => none
  | r :: rs =>
    if lower r = "yes".data ∨ lower r = "y".data then some true
    else if lower r = "no".data ∨ lower r = "n".data then some false
    else if lower r = "modify".data ∨ lower r = "m".data then some handle_modify
    else request_approval rs

/-- Mock knowledge-base record returned by
`ResearchAgent._search_knowledge_base` (lines 277-285); the `relevance`
float is kept as its rendered text since it is only ever interpolated
into markdown. -/
structure KBResult where
  title : String
  relevance : String
deriving DecidableEq

/-- Mock code-example record returned by
`ResearchAgent._search_code_examples` (lines 287-293). -/
structure CodeExample where
  title : String
  language : String
deriving DecidableEq

/-- Outcome of the external Claude API interaction inside an agent:
the SDK may be unavailable or unconfigured (`self.claude is None`), the
call may raise, or it may return a response already shaped as `α`. -/
inductive ClaudeCall (α : Type)
  | unavailable
  | ok (response : α)
  | apiError (msg : String)

/-- Fallback document built by `ResearchAgent._create_research_document`
(lines 338-352) when the Claude call is unavailable or raised. -/
def basic_research_doc (topic : String) (kb : List KBResult)
    (ce : List CodeExample) (docs : List String) : String :=
  let d1 := "# Research: " ++ topic ++ "\n\n" ++
    "## Knowledge Base Results (" ++ toString kb.length ++ " found)\n\n"
  let d2 := kb.foldl (fun acc r =>
    acc ++ "- " ++ r.title ++ " (relevance: " ++ r.relevance ++ ")\n") d1
  let d3 := d2 ++ "\n## Code Examples (" ++ toString ce.length ++ " found)\n\n"
  let d4 := ce.foldl (fun acc e =>
    acc ++ "- " ++ e.title ++ " (" ++ e.language ++ ")\n") d3
  let d5 := d4 ++ "\n## Documentation Review\n\n"
  docs.foldl (fun acc i => acc ++ "- " ++ i ++ "\n") d5

/-- Model of `ResearchAgent._create_research_document` (lines 299-352):
when the Claude call returns text, that text is the document; when the
client is absent or the call raises, the code prints a warning and falls
back to `basic_research_doc` — the exception is swallowed, nothing is
retried, and no failure is propagated (the return type is total). -/
def create_research_document (claude : ClaudeCall String) (topic : String)
    (kb : List KBResult) (ce : List CodeExample) (docs : List String) : String :=
  match claude with
  | .ok text => text
  | .apiError _ => basic_research_doc topic kb ce docs
  | .unavailable => basic_research_doc topic kb ce docs

/-- Task record produced by `PlanAgent._break_into_tasks`. -/
structure PlanTask where
  name : String
  type : String
  hours : Nat
deriving DecidableEq

/-- Fallback task list of `_break_into_tasks` (lines 446-453). -/
def default_tasks : List PlanTask :=
  [⟨"Set up project structure", "setup", 1⟩,
   ⟨"Implement core functionality", "implementation", 4⟩,
   ⟨"Add error handling", "implementation", 2⟩,
   ⟨"Write unit tests", "testing", 3⟩,
   ⟨"Write integration tests", "testing", 2⟩,
   ⟨"Update documentation", "documentation", 1⟩]

/-- Model of `PlanAgent._break_into_tasks` (lines 408-453): a successful
Claude call whose response contains a parseable JSON array yields those
tasks (`ok (some tasks)`); a response without a JSON array (`ok none`),
an API exception, or an absent client all fall through to
`default_tasks` — again with no retry and no propagated failure. -/
def break_into_tasks (claude : ClaudeCall (Option (List PlanTask))) : List PlanTask :=
  match claude with
  | .ok (some tasks) => tasks
  | .ok none => default_tasks
  | .apiError _ => default_tasks
  | .unavailable => default_tasks

/-- Mock results of `ResearchAgent._search_knowledge_base` (lines 281-285). -/
def search_knowledge_base (topic : String) : List KBResult :=
  [⟨"Pattern 1 for " ++ topic, "0.95"⟩,
   ⟨"Pattern 2 for " ++ topic, "0.89"⟩,
   ⟨"Pattern 3 for " ++ topic, "0.82"⟩]

/-- Mock results of `ResearchAgent._search_code_examples` (lines 290-293). -/
def search_code_examples (topic : String) : List CodeExample :=
  [⟨"Example 1 for " ++ topic, "python"⟩,
   ⟨"Example 2 for " ++ topic, "typescript"⟩]

/-- Result of `ResearchAgent._review_docs` (lines 295-297). -/
def review_docs (topic : String) : List String :=
  ["Documentation for " ++ topic]

/-- Result of `ResearchAgent._generate_recommendation` (lines 354-356). -/
def generate_recommendation (kb : List KBResult) (ce : List CodeExample) : String :=
  "Based on " ++ toString kb.length ++ " patterns and " ++ toString ce.length ++
    " examples, recommend proceeding with implementation."

/-- Dictionary returned by `ResearchAgent.execute` (lines 270-275). -/
structure ResearchResult where
  summary : Str
  full_document : String
  findings_count : Nat
  recommendation : String
deriving DecidableEq

/-- Model of `ResearchAgent.execute(topic, sources)` (lines 244-275):
runs the three mock searches, builds the full document, saves it through
the firewall (the returned path becomes `full_document`), summarizes the
full document with the default budget 2000, and returns the result
dictionary.  The firewall directory and the clock timestamp are explicit
parameters. -/
def research_agent_execute (claude : ClaudeCall String)
    (firewall_dir timestamp topic : String) : ResearchResult :=
  let kb := search_knowledge_base topic
  let ce := search_code_examples topic
  let docs := review_docs topic
  let full_output := create_research_document claude topic kb ce docs
  let filepath := save_full_output firewall_dir "research" topic timestamp full_output
  let summary := create_summary full_output.data 2000
  { summary := summary
    full_document := filepath
    findings_count := kb.length + ce.length
    recommendation := generate_recommendation kb ce }

/-- Workflow phases of `AutoFlowOrchestrator` in their fixed order. -/
inductive Phase
  | research
  | plan
  | implement
  | validate
  | integrate
deriving DecidableEq

/-- External decisions taken during one `run_workflow` call: the boolean
each `HumanCheckpoint.request_approval` call returned at the research,
plan, implement and validate checkpoints (there is no checkpoint before
integrate), and whether `create_worktree` succeeded in phase 3. -/
structure CheckpointEnv where
  research_approved : Bool
  plan_approved : Bool
  implement_approved : Bool
  validate_approved : Bool
  worktree_created : Bool
deriving DecidableEq

/-- How a `run_workflow` call ended: `exited p` models the `sys.exit(1)`
issued when the checkpoint after phase `p` is not approved; `crashed`
models the uncaught KeyError in `_phase_4_validate` when
`_phase_3_implement` returned an empty dict after worktree creation
failed; `completed` is the normal end after phase 5. -/
inductive RunStop
  | exited (p : Phase)
  | crashed
  | completed
deriving DecidableEq

/-- Model of `AutoFlowOrchestrator._phase_1_research` (lines 776-810):
the research agent runs, then the checkpoint decides; returns the agents
invoked and whether control continues (False models `sys.exit(1)`). -/
def phase_1_research (e : CheckpointEnv) : List Phase × Bool :=
  ([Phase.research], e.research_approved)

/-- Model of `AutoFlowOrchestrator._phase_2_plan` (lines 812-849). -/
def phase_2_plan (e : CheckpointEnv) : List Phase × Bool :=
  ([Phase.plan], e.plan_approved)

/-- Model of `AutoFlowOrchestrator._phase_3_implement` (lines 851-887):
when worktree creation fails the method returns the empty dict without
running the implement agent or its checkpoint and without exiting
(`none`); otherwise the agent runs and the checkpoint decides. -/
def phase_3_implement (e : CheckpointEnv) : List Phase × Option Bool :=
  if e.worktree_created then ([Phase.implement], some e.implement_approved)
  else ([], none)

/-- Model of `AutoFlowOrchestrator._phase_4_validate` (lines 889-915),
reached with a well-formed implement result. -/
def phase_4_validate (e : CheckpointEnv) : List Phase × Bool :=
  ([Phase.validate], e.validate_approved)

/-- Model of `AutoFlowOrchestrator._phase_5_integrate` (lines 917-928):
merges the worktree; no agent call and no checkpoint. -/
def phase_5_integrate : List Phase :=
  [Phase.integrate]

/-- Model of `AutoFlowOrchestrator.run_workflow(task_description)` (lines
752-774): drives the five phases in order; each unapproved checkpoint
raises SystemExit inside its phase helper, ending the run there; a failed
worktree creation in phase 3 leads to the KeyError crash at the start of
phase 4, before the validate agent is invoked.  Returns the list of
phases whose work was actually started, in order, and how the run
stopped. -/
def run_workflow (e : CheckpointEnv) : List Phase × RunStop :=
  let p1 := phase_1_research e
  if p1.2 = false then (p1.1, RunStop.exited Phase.research)
  else
    let p2 := phase_2_plan e
    if p2.2 = false then (p1.1 ++ p2.1, RunStop.exited Phase.plan)
    else
      match phase_3_implement e with
      | (i3, none) => (p1.1 ++ p2.1 ++ i3, RunStop.crashed)
      | (i3, some ok3) =>
        if ok3 = false then (p1.1 ++ p2.1 ++ i3, RunStop.exited Phase.implement)
        else
          let p4 := phase_4_validate e
          if p4.2 = false then (p1.1 ++ p2.1 ++ i3 ++ p4.1, RunStop.exited Phase.validate)
          else (p1.1 ++ p2.1 ++ i3 ++ p4.1 ++ phase_5_integrate, RunStop.completed)

/-- Unfolding lemma for `request_approval` on a non-empty response list. -/
theorem request_approval_cons (r : Str) (rs : List Str) :
    request_approval (r :: rs) =
      (if lower r = "yes".data ∨ lower r = "y".data then some true
       else if lower r = "no".data ∨ lower r = "n".data then some false
       else if lower r = "modify".data ∨ lower r = "m".data then some handle_modify
       else request_approval rs) := rfl

/-- C3 (amended): for every content and every token budget B, the length
of `create_summary` output is at most `B * 4 + 16` characters — the code
converts the token budget to a character cap at 4 characters per token
(line 131) and the fixed overhead is the 16-character truncation marker;
the bound `B + fixed_overhead` of the claim does not hold. -/
theorem create_summary_length_bound (c : Str) (B : Nat) :
    (create_summary c B).length ≤ B * 4 + 16 := by
  unfold create_summary
  split_ifs with h
  · rw [List.length_append, List.length_take]
    have h16 : truncation_marker.length = 16 := by decide
    rw [h16]
    have := Nat.min_le_left (B * 4) (summary_before_truncation c).length
    omega
  · omega

/-- C3 (counterexample): with budget 100 and a content of four hundred
dashes, the summary is 416 characters long — more than the budget plus
any small fixed overhead (the truncation marker is 16 characters and the
header here is 25), refuting `len(summarize(C,B)) ≤ B + fixed_overhead`. -/
theorem summary_length_exceeds_budget_cex :
    (create_summary (List.replicate 400 '-') 100).length = 416 ∧
    ¬ (create_summary (List.replicate 400 '-') 100).length ≤ 100 + 200 := by
  constructor
  · decide
  · decide

/-- C9 (amended): on empty content, whenever the character cap `B * 4`
covers the 25-character header (that is, for every budget B ≥ 7),
`create_summary` returns exactly the header announcing zero key points;
it is a total function, so it never fails on empty input. -/
theorem empty_input_summary_header (B : Nat) (h : 7 ≤ B) :
    create_summary [] B = "SUMMARY (0 key points):\n\n".data := by
  have h0 : summary_before_truncation [] = "SUMMARY (0 key points):\n\n".data := by decide
  have hlen : ("SUMMARY (0 key points):\n\n".data).length = 25 := by decide
  have hc : ¬ ("SUMMARY (0 key points):\n\n".data).length > B * 4 := by
    rw [hlen]; omega
  unfold create_summary
  simp only [h0]
  rw [if_neg hc]

/-- C9 (witness): scenario C of the specification, budget 2000. -/
theorem empty_input_summary_header_witness :
    7 ≤ 2000 ∧ create_summary [] 2000 = "SUMMARY (0 key points):\n\n".data :=
  ⟨by decide, empty_input_summary_header 2000 (by decide)⟩

/-- C9 (counterexample): the claim quantifies over every budget, but at
budget 1 the 4-character cap truncates the header itself, so the result
no longer states that zero structured points were found. -/
theorem empty_summary_tiny_budget_cex :
    create_summary [] 1 = "SUMM\n\n[Truncated...]".data ∧
    ("SUMMARY (0".data).isPrefixOf (create_summary [] 1) = false := by
  constructor
  · decide
  · decide

/-- C8 (counterexample): `create_summary` has no fallback to the first M
characters of the raw content.  On "hello" (no structured line) the
summary is the bare header with an empty body — no character of the
content survives — and a line using the numbered-list marker "4." is not
collected as a structured point either, because only the digits 1-3 are
recognized. -/
theorem summary_no_raw_fallback_cex :
    create_summary "hello".data 2000 = "SUMMARY (0 key points):\n\n".data ∧
    'h' ∈ "hello".data ∧
    'h' ∉ create_summary "hello".data 2000 ∧
    create_summary "4. foo".data 2000 = "SUMMARY (0 key points):\n\n".data := by
  refine ⟨by decide, by decide, by decide, by decide⟩

/-- C8 (amended): a key point is a line whose stripped text starts with
one of the characters -, *, 1, 2, 3.  When the assembled text fits the
character cap, the summary is the header followed by the first 20 key
points; the selected lines all satisfy the key-point test and appear as a
sublist (hence in original order) of the content's lines; with no key
point the summary is the header with an empty body — there is no raw
content fallback. -/
theorem summary_body_first20_key_points (c : Str) (B : Nat)
    (h : (summary_before_truncation c).length ≤ B * 4) :
    create_summary c B =
      summary_header (key_points c).length ++
        List.intercalate ['\n'] ((key_points c).take 20) ∧
    ((key_points c).take 20).Sublist (splitLines c) ∧
    (∀ l ∈ key_points c, is_key_point l = true) ∧
    (key_points c = [] → create_summary c B = summary_header 0) := by
  have hmain : create_summary c B = summary_before_truncation c := by
    unfold create_summary
    have hc : ¬ (summary_before_truncation c).length > B * 4 := by omega
    rw [if_neg hc]
  refine ⟨hmain, ?_, ?_, ?_⟩
  · exact (List.take_sublist _ _).trans (List.filter_sublist _)
  · intro l hl
    unfold key_points at hl
    exact (List.mem_filter.mp hl).2
  · intro hkp
    rw [hmain]
    unfold summary_before_truncation
    rw [hkp]
    decide

/-- C8 (witness): a three-line content with two key-point lines, within
budget. -/
theorem summary_body_first20_key_points_witness :
    create_summary "- a\nx\n* b".data 2000 =
      summary_header (key_points "- a\nx\n* b".data).length ++
        List.intercalate ['\n'] ((key_points "- a\nx\n* b".data).take 20) :=
  (summary_body_first20_key_points "- a\nx\n* b".data 2000 (by decide)).1

/-- C4 (counterexample): a summary produced by `create_summary` contains
no reference to the archived location — neither the full path returned by
`save_full_output`, nor the archive file name, nor even the ".md"
extension occurs in it. -/
theorem summary_lacks_artifact_pointer_cex :
    containsSeg (create_summary "- a".data 2000)
      (save_full_output ".autoflow/context-firewalls" "research" "auth"
        "20250101-120000" "- a").data = false ∧
    containsSeg (create_summary "- a".data 2000)
      "research-auth-20250101-120000.md".data = false ∧
    containsSeg (create_summary "- a".data 2000) ".md".data = false := by
  refine ⟨by decide, by decide, by decide⟩

/-- C4 (amended): the summary text itself carries no pointer, but a
summary is never produced in isolation: `ResearchAgent.execute` archives
the full document through `save_full_output` and returns the archived
path together with the summary in its result dictionary (`full_document`
next to `summary`). -/
theorem research_result_pairs_summary_with_artifact
    (claude : ClaudeCall String) (fdir ts topic : String) :
    (research_agent_execute claude fdir ts topic).full_document =
      save_full_output fdir "research" topic ts
        (create_research_document claude topic (search_knowledge_base topic)
          (search_code_examples topic) (review_docs topic)) ∧
    (research_agent_execute claude fdir ts topic).summary =
      create_summary (create_research_document claude topic (search_knowledge_base topic)
        (search_code_examples topic) (review_docs topic)).data 2000 :=
  ⟨rfl, rfl⟩

/-- C5 (counterexample): an execution error from the external Claude call
is not fatal — `_create_research_document` swallows the exception and
returns the basic fallback document, and `_break_into_tasks` returns the
default task list; the run continues instead of producing Aborted. -/
theorem api_error_falls_back_cex :
    create_research_document (ClaudeCall.apiError "API error") "t" [] [] [] =
      basic_research_doc "t" [] [] [] ∧
    break_into_tasks (ClaudeCall.apiError "API error") = default_tasks :=
  ⟨rfl, rfl⟩

/-- C5 (amended): on any execution error from the Claude call, the agents
substitute a deterministic fallback output (the basic research document,
respectively the default task list) and continue; the call is made once —
the outcome parameter enters each function a single time — so nothing is
retried, and no error is propagated to the workflow. -/
theorem api_error_uses_fallback_no_retry :
    (∀ (msg topic : String) (kb : List KBResult) (ce : List CodeExample)
        (docs : List String),
      create_research_document (ClaudeCall.apiError msg) topic kb ce docs =
        basic_research_doc topic kb ce docs) ∧
    (∀ msg : String, break_into_tasks (ClaudeCall.apiError msg) = default_tasks) :=
  ⟨fun _ _ _ _ _ => rfl, fun _ => rfl⟩

/-- C1 (counterexample): starting from a repository whose worktree exists,
is clean, and whose branch is present but unmerged, a merge that fails
with a conflict still ends with the worktree directory removed — cleanup
is attempted and partially succeeds — and `merge_worktree` reports True,
even though no transition through a successful merge happened
(`branchMerged` is still false). -/
theorem merge_conflict_leaves_workspace_cex :
    (merge_worktree MergeOutcome.conflict
      ⟨false, true, true, true, false, false⟩).1.worktreeDirPresent = false ∧
    (merge_worktree MergeOutcome.conflict
      ⟨false, true, true, true, false, false⟩).1.branchMerged = false ∧
    (merge_worktree MergeOutcome.conflict
      ⟨false, true, true, true, false, false⟩).2 = true := by
  refine ⟨by decide, by decide, by decide⟩

/-- C1 (amended): cleanup in `merge_worktree` is unconditional — a merge
that fails with a conflict still returns True, leaves the conflict in the
main checkout, removes the worktree directory whenever it is clean, and
only leaves the branch behind because `git branch -d` itself refuses to
delete an unmerged branch; nothing in the code gates cleanup on merge
success, and only a missing worktree directory avoids it. -/
theorem merge_conflict_cleanup_unconditional (s : RepoState)
    (hw : s.worktreeDirPresent = true) (hm : s.branchMerged = false) :
    (merge_worktree MergeOutcome.conflict s).2 = true ∧
    (merge_worktree MergeOutcome.conflict s).1.conflictInProgress = true ∧
    (s.worktreeClean = true →
      (merge_worktree MergeOutcome.conflict s).1.worktreeDirPresent = false) ∧
    (merge_worktree MergeOutcome.conflict s).1.branchPresent = s.branchPresent := by
  obtain ⟨a, b, c, d, e, f⟩ := s
  revert hw hm
  cases a <;> cases b <;> cases c <;> cases d <;> cases e <;> cases f <;> decide

/-- C1 (witness): the amended theorem applied at the counterexample
state. -/
theorem merge_conflict_cleanup_unconditional_witness :
    (merge_worktree MergeOutcome.conflict
      ⟨false, true, true, true, false, false⟩).2 = true ∧
    (merge_worktree MergeOutcome.conflict
      ⟨false, true, true, true, false, false⟩).1.conflictInProgress = true :=
  ⟨(merge_conflict_cleanup_unconditional ⟨false, true, true, true, false, false⟩ rfl rfl).1,
   (merge_conflict_cleanup_unconditional ⟨false, true, true, true, false, false⟩ rfl rfl).2.1⟩

/-- C2 (confirmed): in `run_workflow`, a later phase's work starts only
when every earlier checkpoint returned approval, and a rejected
checkpoint ends the run at that phase with no later phase started:
the invocation list stops exactly at the rejected phase. -/
theorem phase_gating (e : CheckpointEnv) :
    (Phase.plan ∈ (run_workflow e).1 → e.research_approved = true) ∧
    (Phase.implement ∈ (run_workflow e).1 →
      e.research_approved = true ∧ e.plan_approved = true) ∧
    (Phase.validate ∈ (run_workflow e).1 →
      e.research_approved = true ∧ e.plan_approved = true ∧
        e.implement_approved = true) ∧
    (Phase.integrate ∈ (run_workflow e).1 →
      e.research_approved = true ∧ e.plan_approved = true ∧
        e.implement_approved = true ∧ e.validate_approved = true) ∧
    (e.research_approved = false →
      run_workflow e = ([Phase.research], RunStop.exited Phase.research)) ∧
    (e.research_approved = true → e.plan_approved = false →
      run_workflow e = ([Phase.research, Phase.plan], RunStop.exited Phase.plan)) ∧
    (e.research_approved = true → e.plan_approved = true →
      e.worktree_created = true → e.implement_approved = false →
      run_workflow e = ([Phase.research, Phase.plan, Phase.implement],
        RunStop.exited Phase.implement)) ∧
    (e.research_approved = true → e.plan_approved = true →
      e.worktree_created = true → e.implement_approved = true →
      e.validate_approved = false →
      run_workflow e = ([Phase.research, Phase.plan, Phase.implement, Phase.validate],
        RunStop.exited Phase.validate)) := by
  obtain ⟨r, p, i, v, w⟩ := e
  refine ⟨?_, ?_, ?_, ?_, ?_, ?_, ?_, ?_⟩ <;>
    cases r <;> cases p <;> cases i <;> cases v <;> cases w <;> decide

/-- C2 (witness): a run whose plan checkpoint rejects stops after the plan
phase. -/
theorem phase_gating_witness :
    run_workflow ⟨true, false, true, true, true⟩ =
      ([Phase.research, Phase.plan], RunStop.exited Phase.plan) :=
  (phase_gating ⟨true, false, true, true, true⟩).2.2.2.2.2.1 rfl rfl

/-- C6 (confirmed): when a worktree for the branch already exists,
`create_worktree` returns None with the pool state unchanged — no new
directory and no new branch; consequently a second create call with the
branch name of a previously successful create returns None and changes
nothing. -/
theorem create_worktree_already_exists_no_side_effects :
    (∀ (st : PoolState) (b : String), b ∈ st.worktrees →
      create_worktree st b = (none, st)) ∧
    (∀ (st st1 : PoolState) (b p : String),
      create_worktree st b = (some p, st1) →
      create_worktree st1 b = (none, st1)) := by
  constructor
  · intro st b hb
    unfold create_worktree
    rw [if_pos hb]
  · intro st st1 b p hc
    unfold create_worktree at hc
    split_ifs at hc with h1 h2
    · simp at hc
    · simp at hc
    · injection hc with hp hst
      subst hst
      unfold create_worktree
      rw [if_pos (List.mem_cons_self b st.worktrees)]

/-- C6 (witness): a create call on a branch already in the pool. -/
theorem create_worktree_already_exists_no_side_effects_witness :
    create_worktree ⟨["b1"], ["b1"]⟩ "b1" = (none, ⟨["b1"], ["b1"]⟩) :=
  create_worktree_already_exists_no_side_effects.1 ⟨["b1"], ["b1"]⟩ "b1" (by decide)

/-- C7 (confirmed): a response lowercasing to modify or m makes
`request_approval` return `handle_modify`, which is False — Modify is
deterministically mapped to rejection, never to approval, and the
function's Bool codomain admits no third decision variant. -/
theorem modify_maps_to_reject (r : Str) (rs : List Str)
    (h : lower r = "modify".data ∨ lower r = "m".data) :
    request_approval (r :: rs) = some false := by
  have h1 : ¬ (lower r = "yes".data ∨ lower r = "y".data) := by
    rcases h with h | h <;> rw [h] <;> decide
  have h2 : ¬ (lower r = "no".data ∨ lower r = "n".data) := by
    rcases h with h | h <;> rw [h] <;> decide
  rw [request_approval_cons, if_neg h1, if_neg h2, if_pos h]
  rfl

/-- C7 (witness): the literal responses "modify" and "Modify". -/
theorem modify_maps_to_reject_witness :
    request_approval ["modify".data] = some false ∧
    request_approval ["Modify".data] = some false :=
  ⟨modify_maps_to_reject "modify".data [] (by decide),
   modify_maps_to_reject "Modify".data [] (by decide)⟩

/-- C10 (confirmed): the checkpoint loop approves exactly on yes/y —
responses lowercasing to yes or y return True, those lowercasing to no,
n, modify or m return False, an unrecognized response is skipped and the
loop continues with the remaining responses, and an approval can only
ever arise from some response in the stream lowercasing to yes or y. -/
theorem approval_gate_characterization :
    (∀ (r : Str) (rs : List Str), (lower r = "yes".data ∨ lower r = "y".data) →
      request_approval (r :: rs) = some true) ∧
    (∀ (r : Str) (rs : List Str),
      (lower r = "no".data ∨ lower r = "n".data ∨
        lower r = "modify".data ∨ lower r = "m".data) →
      request_approval (r :: rs) = some false) ∧
    (∀ (r : Str) (rs : List Str),
      lower r ≠ "yes".data → lower r ≠ "y".data → lower r ≠ "no".data →
      lower r ≠ "n".data → lower r ≠ "modify".data → lower r ≠ "m".data →
      request_approval (r :: rs) = request_approval rs) ∧
    (∀ rs : List Str, request_approval rs = some true →
      ∃ r, r ∈ rs ∧ (lower r = "yes".data ∨ lower r = "y".data)) := by
  refine ⟨?_, ?_, ?_, ?_⟩
  · intro r rs h
    rw [request_approval_cons, if_pos h]
  · intro r rs h
    rcases h with h | h | h | h
    · have h1 : ¬ (lower r = "yes".data ∨ lower r = "y".data) := by
        rw [h]; decide
      rw [request_approval_cons, if_neg h1, if_pos (Or.inl h)]
    · have h1 : ¬ (lower r = "yes".data ∨ lower r = "y".data) := by
        rw [h]; decide
      rw [request_approval_cons, if_neg h1, if_pos (Or.inr h)]
    · exact modify_maps_to_reject r rs (Or.inl h)
    · exact modify_maps_to_reject r rs (Or.inr h)
  · intro r rs hy hy2 hn hn2 hm hm2
    rw [request_approval_cons, if_neg (not_or.mpr ⟨hy, hy2⟩),
      if_neg (not_or.mpr ⟨hn, hn2⟩), if_neg (not_or.mpr ⟨hm, hm2⟩)]
  · intro rs
    induction rs with
    | nil => intro h; simp [request_approval] at h
    | cons r rs ih =>
      intro h
      rw [request_approval_cons] at h
      by_cases h1 : lower r = "yes".data ∨ lower r = "y".data
      · exact ⟨r, List.mem_cons_self r rs, h1⟩
      · rw [if_neg h1] at h
        by_cases h2 : lower r = "no".data ∨ lower r = "n".data
        · rw [if_pos h2] at h
          simp at h
        · rw [if_neg h2] at h
          by_cases h3 : lower r = "modify".data ∨ lower r = "m".data
          · rw [if_pos h3] at h
            simp [handle_modify] at h
          · rw [if_neg h3] at h
            obtain ⟨r', hr', hy⟩ := ih h
            exact ⟨r', List.mem_cons_of_mem r hr', hy⟩

/-- C10 (witness): an unrecognized response is skipped, and an uppercase
YES then approves. -/
theorem approval_gate_characterization_witness :
    request_approval ["maybe".data, "YES".data] = some true :=
  (approval_gate_characterization.2.2.1 "maybe".data ["YES".data]
      (by decide) (by decide) (by decide) (by decide) (by decide) (by decide)).trans
    (approval_gate_characterization.1 "YES".data [] (Or.inl (by decide)))

end AutoFlow
